import Mathlib

/-!
Verification of the run-type classifier of the stravart repository.

The classifier `analyze_run_type` appears twice in the source, once in
`run_analyzer.py` (lines 1-94) and once as a byte-identical copy in
`main.py` (lines 462-556).  We embed both copies, in namespaces
`RunAnalyzer` and `MainPy`, over a shared data model of the dynamic
`activity` value the Python code probes with `hasattr`.

Numbers are modelled by `ℚ` (the Python code uses floats; all claims are
about exact threshold comparisons, none about rounding).  A raised Python
exception inside the `try` block is modelled by `Except.error ()`; the
surrounding `try/except` is the final `match` in `analyze_run_type`.

Label strings are the exact strings the source returns:
"High Intensity Interval Training" (spec label HighIntensityInterval),
"Interval Run" (IntervalRun), "Easy Run" (EasyRun), "Tempo Run"
(TempoRun), "Long Run" (LongRun) and "run" (the generic fallback, spec
label Run).
-/

namespace StravArt

/-- The value of the `name` attribute when present: a Python string, or a
non-string value (e.g. `None`), on which `.lower()` raises. -/
inductive NameVal where
  | str (s : String)
  | nonstr
deriving DecidableEq

/-- A split record: `average_speed` is `some v` when the attribute is
present and numeric, `none` when absent (`hasattr` fails). -/
structure Split where
  average_speed : Option ℚ
deriving DecidableEq

/-- The dynamic activity record probed by `analyze_run_type`:
`name` and `splits_metric` are `none` when the attribute is missing
(`hasattr` fails); `distance` is `none` when missing, in which case the
unguarded access `activity.distance` raises. -/
structure Activity where
  name : Option NameVal
  splits_metric : Option (List Split)
  distance : Option ℚ
deriving DecidableEq

/-- Python list/str prefix test: `startsList p l` is true iff `l` starts
with `p`. -/
def startsList : List Char → List Char → Bool
  | [], _ => true
  | _ :: _, [] => false
  | p :: ps, c :: cs => p = c && startsList ps cs

/-- Python substring test `pat in hay` over the code points of the two
strings: true iff some suffix of `hay` starts with `pat`. -/
def containsSub (hay pat : List Char) : Bool :=
  match hay with
  | [] => startsList pat []
  | _ :: t => startsList pat hay || containsSub t pat

/-- Python `str.lower()`.  The keywords and all concrete inputs in this
development are ASCII, where `Char.toLower` and Python agree. -/
def lowerChars (l : List Char) : List Char := l.map Char.toLower

/-- Python `max` over a nonempty list (the source only calls it on the
nonempty `paces`; the `[]` value is arbitrary). -/
def listMax : List ℚ → ℚ
  | [] => 0
  | x :: xs => xs.foldl max x

/-- Python `min` over a nonempty list (as for `listMax`). -/
def listMin : List ℚ → ℚ
  | [] => 0
  | x :: xs => xs.foldl min x

namespace RunAnalyzer

/-- run_analyzer.py line 17. -/
def interval_keywords : List String :=
  ["interval", "repeat", "x", "400", "800", "1000", "1200", "1600", "mile repeat", "hiit"]

/-- run_analyzer.py line 20. -/
def hiit_keywords : List String :=
  ["hiit", "high intensity", "sprint", "tabata"]

/-- run_analyzer.py lines 31-33: `splits = activity.splits_metric` when the
attribute exists and is truthy, else `[]`.  An empty `splits_metric` list
is falsy in Python and also leaves `splits = []`, the same value, so the
truthiness test needs no extra case. -/
def splitsOf (a : Activity) : List Split :=
  match a.splits_metric with
  | some l => l
  | none => []

/-- run_analyzer.py lines 41-45, for one split: the pace `1000 / speed`
in seconds per km when `average_speed` is present and strictly positive,
otherwise nothing (the split is skipped, contributing no pace). -/
def paceOf (s : Split) : Option ℚ :=
  match s.average_speed with
  | some v => if 0 < v then some (1000 / v) else none
  | none => none

/-- run_analyzer.py lines 40-45: the list of paces of the usable splits. -/
def pacesOf (l : List Split) : List ℚ := l.filterMap paceOf

/-- run_analyzer.py line 51: `avg_pace = sum(paces) / len(paces)`. -/
def avgOf (ps : List ℚ) : ℚ := ps.sum / (ps.length : ℚ)

/-- run_analyzer.py line 52: `pace_variation = max(paces) - min(paces)`. -/
def variationOf (ps : List ℚ) : ℚ := listMax ps - listMin ps

/-- run_analyzer.py line 53 squared: the population variance
`sum((p - avg_pace)**2) / len(paces)`.  The source computes
`pace_std_dev = variance ** 0.5` and only uses it in the comparison
`pace_std_dev < avg_pace * 0.1` (line 81); we keep the variance and
compare against `(avg_pace * 0.1) ^ 2`, which is equivalent because both
sides of the source comparison are nonnegative there and squaring is
monotone on nonnegatives. -/
def sqDevOf (ps : List ℚ) : ℚ :=
  ((ps.map fun p => (p - avgOf ps) ^ 2).sum) / (ps.length : ℚ)

/-- run_analyzer.py lines 60-66: `alternating_pattern` is `True` unless
some three consecutive paces are strictly increasing or strictly
decreasing. -/
def alternatingCheck : List ℚ → Bool
  | a :: b :: c :: rest =>
      if (c > b ∧ b > a) ∨ (c < b ∧ b < a) then false
      else alternatingCheck (b :: c :: rest)
  | _ => true

/-- run_analyzer.py lines 50-91: the statistics and the decision chain,
given the extracted paces and the activity's distance in meters.  The
dead values `pace_changes`/`avg_change` (lines 56-57) are computed by the
source but never used in any branch, and are omitted. -/
def decisionFor (paces : List ℚ) (distance : ℚ) : String :=
  let avg_pace := avgOf paces
  let pace_variation := variationOf paces
  let pace_sq_dev := sqDevOf paces
  let alternating_pattern := alternatingCheck paces
  let distance_miles := distance / 1609.34
  let avg_pace_secs_per_mile := avg_pace * 1.60934
  if alternating_pattern = true ∧ pace_variation > avg_pace * 0.2 then
    "Interval Run"
  else if distance_miles > 5 ∧ avg_pace_secs_per_mile ≥ 450 then
    "Easy Run"
  else if 3 ≤ distance_miles ∧ distance_miles ≤ 10 ∧ avg_pace_secs_per_mile < 450
      ∧ pace_sq_dev < (avg_pace * 0.1) ^ 2 then
    "Tempo Run"
  else if distance_miles > 10 ∧ avg_pace_secs_per_mile ≥ 450 then
    "Long Run"
  else if distance_miles ≤ 5 ∧ avg_pace_secs_per_mile < 450 then
    "Tempo Run"
  else
    "run"

/-- run_analyzer.py lines 30-91: everything after the name checks.  The
source reads `activity.distance` (line 69) with no `hasattr` guard, the
only statement in the `try` block that can raise on our model; the pure
statistics the source computes just before that line cannot raise and
are folded into `decisionFor`. -/
def analyzeSplits (a : Activity) : Except Unit String :=
  let splits := splitsOf a
  if splits.length < 3 then Except.ok "run"
  else
    let paces := pacesOf splits
    if paces = [] then Except.ok "run"
    else
      match a.distance with
      | none => Except.error ()
      | some d => Except.ok (decisionFor paces d)

/-- run_analyzer.py lines 13-91: the body of the `try` block.
`Except.error ()` stands for a raised exception: `.lower()` on a
non-string `name`, or the missing-`distance` access inside
`analyzeSplits`. -/
def analyzeCore (a : Activity) : Except Unit String :=
  match a.name with
  | some NameVal.nonstr => Except.error ()
  | some (NameVal.str s) =>
      let name_lower := lowerChars s.data
      if hiit_keywords.any fun k => containsSub name_lower k.data then
        Except.ok "High Intensity Interval Training"
      else if interval_keywords.any fun k => containsSub name_lower k.data then
        Except.ok "Interval Run"
      else analyzeSplits a
  | none => analyzeSplits a

/-- run_analyzer.py lines 1-94: the whole function.  The `except` handler
(lines 92-94) returns the fallback `run_type`, which is still `"run"` on
every path that can raise. -/
def analyze_run_type (a : Activity) : String :=
  match analyzeCore a with
  | Except.ok s => s
  | Except.error _ => "run"

/-- The name checks of lines 14-28 fall through to the split analysis:
either the `name` attribute is missing, or it is a string whose
lower-casing contains no HIIT keyword and no interval keyword. -/
def nameFallsThrough : Option NameVal → Bool
  | none => true
  | some NameVal.nonstr => false
  | some (NameVal.str s) =>
      !(hiit_keywords.any fun k => containsSub (lowerChars s.data) k.data) &&
      !(interval_keywords.any fun k => containsSub (lowerChars s.data) k.data)

/-- No three consecutive paces are strictly monotone: the property the
loop of lines 60-66 decides. -/
def NoMonoTriple (ps : List ℚ) : Prop :=
  ∀ (l₁ : List ℚ) (a b c : ℚ) (l₂ : List ℚ), ps = l₁ ++ a :: b :: c :: l₂ →
    ¬ ((a < b ∧ b < c) ∨ (a > b ∧ b > c))

end RunAnalyzer

namespace MainPy

/-- main.py line 478 (copy of run_analyzer.py line 17). -/
def interval_keywords : List String :=
  ["interval", "repeat", "x", "400", "800", "1000", "1200", "1600", "mile repeat", "hiit"]

/-- main.py line 481 (copy of run_analyzer.py line 20). -/
def hiit_keywords : List String :=
  ["hiit", "high intensity", "sprint", "tabata"]

/-- main.py lines 492-494 (copy of run_analyzer.py lines 31-33). -/
def splitsOf (a : Activity) : List Split :=
  match a.splits_metric with
  | some l => l
  | none => []

/-- main.py lines 502-506, one split (copy of run_analyzer.py 41-45). -/
def paceOf (s : Split) : Option ℚ :=
  match s.average_speed with
  | some v => if 0 < v then some (1000 / v) else none
  | none => none

/-- main.py lines 501-506 (copy of run_analyzer.py 40-45). -/
def pacesOf (l : List Split) : List ℚ := l.filterMap paceOf

/-- main.py line 512 (copy of run_analyzer.py line 51). -/
def avgOf (ps : List ℚ) : ℚ := ps.sum / (ps.length : ℚ)

/-- main.py line 513 (copy of run_analyzer.py line 52). -/
def variationOf (ps : List ℚ) : ℚ := listMax ps - listMin ps

/-- main.py line 514 squared (copy of run_analyzer.py line 53; see
`RunAnalyzer.sqDevOf` for the squaring). -/
def sqDevOf (ps : List ℚ) : ℚ :=
  ((ps.map fun p => (p - avgOf ps) ^ 2).sum) / (ps.length : ℚ)

/-- main.py lines 521-527 (copy of run_analyzer.py 60-66). -/
def alternatingCheck : List ℚ → Bool
  | a :: b :: c :: rest =>
      if (c > b ∧ b > a) ∨ (c < b ∧ b < a) then false
      else alternatingCheck (b :: c :: rest)
  | _ => true

/-- main.py lines 511-552 (copy of run_analyzer.py 50-91). -/
def decisionFor (paces : List ℚ) (distance : ℚ) : String :=
  let avg_pace := avgOf paces
  let pace_variation := variationOf paces
  let pace_sq_dev := sqDevOf paces
  let alternating_pattern := alternatingCheck paces
  let distance_miles := distance / 1609.34
  let avg_pace_secs_per_mile := avg_pace * 1.60934
  if alternating_pattern = true ∧ pace_variation > avg_pace * 0.2 then
    "Interval Run"
  else if distance_miles > 5 ∧ avg_pace_secs_per_mile ≥ 450 then
    "Easy Run"
  else if 3 ≤ distance_miles ∧ distance_miles ≤ 10 ∧ avg_pace_secs_per_mile < 450
      ∧ pace_sq_dev < (avg_pace * 0.1) ^ 2 then
    "Tempo Run"
  else if distance_miles > 10 ∧ avg_pace_secs_per_mile ≥ 450 then
    "Long Run"
  else if distance_miles ≤ 5 ∧ avg_pace_secs_per_mile < 450 then
    "Tempo Run"
  else
    "run"

/-- main.py lines 491-552 (copy of run_analyzer.py 30-91). -/
def analyzeSplits (a : Activity) : Except Unit String :=
  let splits := splitsOf a
  if splits.length < 3 then Except.ok "run"
  else
    let paces := pacesOf splits
    if paces = [] then Except.ok "run"
    else
      match a.distance with
      | none => Except.error ()
      | some d => Except.ok (decisionFor paces d)

/-- main.py lines 474-552 (copy of run_analyzer.py 13-91). -/
def analyzeCore (a : Activity) : Except Unit String :=
  match a.name with
  | some NameVal.nonstr => Except.error ()
  | some (NameVal.str s) =>
      let name_lower := lowerChars s.data
      if hiit_keywords.any fun k => containsSub name_lower k.data then
        Except.ok "High Intensity Interval Training"
      else if interval_keywords.any fun k => containsSub name_lower k.data then
        Except.ok "Interval Run"
      else analyzeSplits a
  | none => analyzeSplits a

/-- main.py lines 462-556 (copy of run_analyzer.py 1-94). -/
def analyze_run_type (a : Activity) : String :=
  match analyzeCore a with
  | Except.ok s => s
  | Except.error _ => "run"

end MainPy

namespace RunAnalyzer

/-- When the name falls through, there are at least 3 splits and at least
one usable pace, the classifier reaches the decision chain of lines
74-91 and returns its label. -/
theorem analyze_reaches_decision (nm : Option NameVal) (sl : List Split) (d : ℚ)
    (hn : nameFallsThrough nm = true) (h3 : ¬ sl.length < 3)
    (hp : pacesOf sl ≠ []) :
    analyze_run_type ⟨nm, some sl, some d⟩ = decisionFor (pacesOf sl) d := by
  cases nm with
  | none =>
      simp only [analyze_run_type, analyzeCore, analyzeSplits, splitsOf, h3, hp,
        if_false, if_neg, ite_false]
  | some v =>
      cases v with
      | nonstr => simp [nameFallsThrough] at hn
      | str s =>
          simp only [nameFallsThrough, Bool.and_eq_true, Bool.not_eq_true'] at hn
          obtain ⟨hh, hi⟩ := hn
          simp only [analyze_run_type, analyzeCore, hh, hi, analyzeSplits, splitsOf]
          simp [h3, hp]

/-- A sequence shorter than 3 has no triple at all. -/
theorem noMonoTriple_short (ps : List ℚ) (h : ps.length < 3) : NoMonoTriple ps := by
  intro l₁ a b c l₂ hps
  have := congrArg List.length hps
  simp [List.length_append] at this
  omega

/-- The loop of lines 60-66 decides exactly the absence of a strictly
monotone triple of consecutive paces. -/
theorem alternatingCheck_iff_noMonoTriple (ps : List ℚ) :
    alternatingCheck ps = true ↔ NoMonoTriple ps := by
  induction ps with
  | nil => simp [alternatingCheck]; exact noMonoTriple_short [] (by simp)
  | cons x tl ih =>
      match tl with
      | [] =>
          simp [alternatingCheck]
          exact noMonoTriple_short [x] (by simp)
      | [y] =>
          simp [alternatingCheck]
          exact noMonoTriple_short [x, y] (by simp)
      | y :: z :: rest =>
          rw [alternatingCheck]
          by_cases hmono : (z > y ∧ y > x) ∨ (z < y ∧ y < x)
          · rw [if_pos hmono]
            constructor
            · intro h; cases h
            · intro h
              exfalso
              refine h [] x y z rest rfl ?_
              rcases hmono with ⟨h1, h2⟩ | ⟨h1, h2⟩
              · exact Or.inl ⟨h2, h1⟩
              · exact Or.inr ⟨h2, h1⟩
          · rw [if_neg hmono]
            rw [ih]
            constructor
            · intro h l₁ a b c l₂ hde
              cases l₁ with
              | nil =>
                  rw [List.nil_append] at hde
                  injection hde with h1 hde
                  injection hde with h2 hde
                  injection hde with h3 hde
                  subst h1; subst h2; subst h3
                  intro hc
                  apply hmono
                  rcases hc with ⟨h1, h2⟩ | ⟨h1, h2⟩
                  · exact Or.inl ⟨h2, h1⟩
                  · exact Or.inr ⟨h2, h1⟩
              | cons w l₁' =>
                  rw [List.cons_append] at hde
                  injection hde with hw hde
                  exact h l₁' a b c l₂ hde
            · intro h l₁ a b c l₂ hde
              exact h (x :: l₁) a b c l₂ (by rw [List.cons_append, ← hde])

/-- With fewer than 3 paces the loop body never runs, so the flag stays
`True`. -/
theorem alternatingCheck_of_short (ps : List ℚ) (h : ps.length < 3) :
    alternatingCheck ps = true := by
  match ps with
  | [] => rfl
  | [a] => rfl
  | [a, b] => rfl
  | a :: b :: c :: r => simp at h; omega

end RunAnalyzer

/-- The two source files define the keyword lists identically. -/
theorem mainPy_keywords_eq : MainPy.interval_keywords = RunAnalyzer.interval_keywords := rfl

/-- The two source files define the HIIT keyword lists identically. -/
theorem mainPy_hiit_eq : MainPy.hiit_keywords = RunAnalyzer.hiit_keywords := rfl

/-- Split extraction agrees between the two copies. -/
theorem mainPy_splitsOf_eq : MainPy.splitsOf = RunAnalyzer.splitsOf := rfl

/-- Per-split pace extraction agrees between the two copies. -/
theorem mainPy_paceOf_eq : MainPy.paceOf = RunAnalyzer.paceOf := rfl

/-- Pace-list extraction agrees between the two copies. -/
theorem mainPy_pacesOf_eq : MainPy.pacesOf = RunAnalyzer.pacesOf := rfl

/-- Mean pace agrees between the two copies. -/
theorem mainPy_avgOf_eq : MainPy.avgOf = RunAnalyzer.avgOf := rfl

/-- Pace variation agrees between the two copies. -/
theorem mainPy_variationOf_eq : MainPy.variationOf = RunAnalyzer.variationOf := rfl

/-- Pace variance agrees between the two copies. -/
theorem mainPy_sqDevOf_eq : MainPy.sqDevOf = RunAnalyzer.sqDevOf := rfl

/-- The alternating-pattern loop agrees between the two copies. -/
theorem mainPy_alternatingCheck_eq : MainPy.alternatingCheck = RunAnalyzer.alternatingCheck := by
  funext ps
  induction ps with
  | nil => rfl
  | cons x tl ih =>
      match tl with
      | [] => rfl
      | [y] => rfl
      | y :: z :: rest =>
          rw [MainPy.alternatingCheck, RunAnalyzer.alternatingCheck, ih]

/-- The decision chain agrees between the two copies. -/
theorem mainPy_decisionFor_eq : MainPy.decisionFor = RunAnalyzer.decisionFor := by
  funext ps d
  simp only [MainPy.decisionFor, RunAnalyzer.decisionFor, mainPy_avgOf_eq,
    mainPy_variationOf_eq, mainPy_sqDevOf_eq, mainPy_alternatingCheck_eq]

/-- The split-analysis stage agrees between the two copies. -/
theorem mainPy_analyzeSplits_eq : MainPy.analyzeSplits = RunAnalyzer.analyzeSplits := by
  funext a
  simp only [MainPy.analyzeSplits, RunAnalyzer.analyzeSplits, mainPy_splitsOf_eq,
    mainPy_pacesOf_eq, mainPy_decisionFor_eq]

/-- The body of the try block agrees between the two copies. -/
theorem mainPy_analyzeCore_eq : MainPy.analyzeCore = RunAnalyzer.analyzeCore := by
  funext a
  simp only [MainPy.analyzeCore, RunAnalyzer.analyzeCore, mainPy_keywords_eq,
    mainPy_hiit_eq, mainPy_analyzeSplits_eq]

theorem analyzeSplits_guard (a : Activity)
    (h : (RunAnalyzer.splitsOf a).length < 3 ∨
      RunAnalyzer.pacesOf (RunAnalyzer.splitsOf a) = []) :
    RunAnalyzer.analyzeSplits a = Except.ok "run" := by
  rcases h with h | h
  · simp [RunAnalyzer.analyzeSplits, h]
  · by_cases h3 : (RunAnalyzer.splitsOf a).length < 3
    · simp [RunAnalyzer.analyzeSplits, h3]
    · simp [RunAnalyzer.analyzeSplits, h3, h]

theorem decisionFor_mem (ps : List ℚ) (d : ℚ) :
    RunAnalyzer.decisionFor ps d ∈
      ["High Intensity Interval Training", "Interval Run", "Easy Run",
        "Tempo Run", "Long Run", "run"] := by
  simp only [RunAnalyzer.decisionFor]
  split_ifs <;> decide

theorem analyzeSplits_ok_mem (a : Activity) (r : String)
    (h : RunAnalyzer.analyzeSplits a = Except.ok r) :
    r ∈ ["High Intensity Interval Training", "Interval Run", "Easy Run",
      "Tempo Run", "Long Run", "run"] := by
  obtain ⟨nm, sp, di⟩ := a
  simp only [RunAnalyzer.analyzeSplits] at h
  split_ifs at h with h1 h2
  · injection h with h; subst h; decide
  · injection h with h; subst h; decide
  · cases di with
    | none => cases h
    | some d =>
        injection h with h
        subst h
        exact decisionFor_mem _ _

theorem analyzeCore_ok_mem (a : Activity) (r : String)
    (h : RunAnalyzer.analyzeCore a = Except.ok r) :
    r ∈ ["High Intensity Interval Training", "Interval Run", "Easy Run",
      "Tempo Run", "Long Run", "run"] := by
  obtain ⟨nm, sp, di⟩ := a
  cases nm with
  | none => exact analyzeSplits_ok_mem _ _ h
  | some v =>
      cases v with
      | nonstr => cases h
      | str s =>
          simp only [RunAnalyzer.analyzeCore] at h
          split_ifs at h with h1 h2
          · injection h with h; subst h; decide
          · injection h with h; subst h; decide
          · exact analyzeSplits_ok_mem _ _ h

/-- C4: every internal computation failure (non-string name, missing
distance field) is caught inside the component and mapped to the generic
fallback label "run", and a normal result is passed through unchanged:
nothing is ever propagated to the caller. -/
theorem claim_C4 (a : Activity) :
    (RunAnalyzer.analyzeCore a = Except.error () →
      RunAnalyzer.analyze_run_type a = "run")
    ∧ (∀ s, RunAnalyzer.analyzeCore a = Except.ok s →
      RunAnalyzer.analyze_run_type a = s) := by
  constructor
  · intro h; simp [RunAnalyzer.analyze_run_type, h]
  · intro s h; simp [RunAnalyzer.analyze_run_type, h]

/-- Witness for C4 at a malformed activity whose name is not a string:
the computation raises and the classifier returns "run". -/
theorem claim_C4_witness :
    RunAnalyzer.analyzeCore ⟨some NameVal.nonstr, some [], some 0⟩ = Except.error ()
    ∧ RunAnalyzer.analyze_run_type ⟨some NameVal.nonstr, some [], some 0⟩ = "run" :=
  ⟨rfl, (claim_C4 _).1 rfl⟩

/-- C5: a HIIT keyword in the lower-cased name returns
"High Intensity Interval Training" immediately; otherwise an interval
keyword returns "Interval Run" immediately, both regardless of splits
and distance. -/
theorem claim_C5 (a : Activity) (s : String)
    (hname : a.name = some (NameVal.str s)) :
    ((RunAnalyzer.hiit_keywords.any fun k =>
        containsSub (lowerChars s.data) k.data) = true →
      RunAnalyzer.analyze_run_type a = "High Intensity Interval Training")
    ∧ ((RunAnalyzer.hiit_keywords.any fun k =>
        containsSub (lowerChars s.data) k.data) = false →
       (RunAnalyzer.interval_keywords.any fun k =>
        containsSub (lowerChars s.data) k.data) = true →
      RunAnalyzer.analyze_run_type a = "Interval Run") := by
  obtain ⟨nm, sp, di⟩ := a
  dsimp only at hname
  subst hname
  constructor
  · intro h
    simp [RunAnalyzer.analyze_run_type, RunAnalyzer.analyzeCore, h]
  · intro h1 h2
    simp [RunAnalyzer.analyze_run_type, RunAnalyzer.analyzeCore, h1, h2]

/-- Witness for C5: the activity named "Tabata Blast" with zero splits is
classified "High Intensity Interval Training" before the
insufficient-data guard can fire. -/
theorem claim_C5_witness :
    RunAnalyzer.analyze_run_type
      ⟨some (NameVal.str "Tabata Blast"), some [], none⟩
      = "High Intensity Interval Training" :=
  (claim_C5 _ "Tabata Blast" rfl).1 (by decide)

/-- C7: a pace is produced exactly for the splits whose average speed is
present and strictly positive, as 1000 / speed; zero-speed and absent
splits yield no pace at all and are dropped from the pace list. -/
theorem claim_C7 :
    (∀ (s : Split) (p : ℚ), RunAnalyzer.paceOf s = some p →
        ∃ v, s.average_speed = some v ∧ 0 < v ∧ p = 1000 / v)
    ∧ (∀ s : Split,
        s.average_speed = none ∨ (∃ v, s.average_speed = some v ∧ ¬ 0 < v) →
        RunAnalyzer.paceOf s = none)
    ∧ (∀ (l₁ l₂ : List Split) (s : Split), RunAnalyzer.paceOf s = none →
        RunAnalyzer.pacesOf (l₁ ++ s :: l₂) = RunAnalyzer.pacesOf (l₁ ++ l₂)) := by
  refine ⟨?_, ?_, ?_⟩
  · intro s p h
    obtain ⟨sp⟩ := s
    cases sp with
    | none => simp [RunAnalyzer.paceOf] at h
    | some v =>
        simp only [RunAnalyzer.paceOf] at h
        split_ifs at h with hv
        injection h with h
        exact ⟨v, rfl, hv, h.symm⟩
  · rintro s (h | ⟨v, hv, hnp⟩)
    · simp [RunAnalyzer.paceOf, h]
    · simp [RunAnalyzer.paceOf, hv, hnp]
  · intro l₁ l₂ s h
    simp [RunAnalyzer.pacesOf, List.filterMap_append, List.filterMap_cons, h]

/-- Witness for C7: a zero-speed split yields no pace. -/
theorem claim_C7_witness : RunAnalyzer.paceOf ⟨some 0⟩ = none :=
  claim_C7.2.1 ⟨some 0⟩ (Or.inr ⟨0, rfl, by norm_num⟩)

/-- C8: every label the classifier can return belongs to the closed
six-element set. -/
theorem claim_C8 (a : Activity) :
    RunAnalyzer.analyze_run_type a ∈
      ["High Intensity Interval Training", "Interval Run", "Easy Run",
        "Tempo Run", "Long Run", "run"] := by
  unfold RunAnalyzer.analyze_run_type
  cases h : RunAnalyzer.analyzeCore a with
  | ok s => exact analyzeCore_ok_mem a s h
  | error e => cases e; decide

/-- C10: the classifier of run_analyzer.py and its byte-identical copy in
main.py are extensionally equal. -/
theorem claim_C10 (a : Activity) :
    MainPy.analyze_run_type a = RunAnalyzer.analyze_run_type a := by
  simp only [MainPy.analyze_run_type, RunAnalyzer.analyze_run_type,
    mainPy_analyzeCore_eq]

/-- C3: the loop of lines 60-66 accepts exactly the sequences with no
strictly monotone triple of consecutive paces, and any activity that
reaches the numeric analysis with an accepted pace sequence whose
variation exceeds 20 percent of the mean pace is classified
"Interval Run", whatever its distance. -/
theorem claim_C3 :
    (∀ ps : List ℚ,
      RunAnalyzer.alternatingCheck ps = true ↔ RunAnalyzer.NoMonoTriple ps)
    ∧ (∀ (nm : Option NameVal) (sl : List Split) (d : ℚ),
        RunAnalyzer.nameFallsThrough nm = true →
        ¬ sl.length < 3 →
        RunAnalyzer.pacesOf sl ≠ [] →
        RunAnalyzer.alternatingCheck (RunAnalyzer.pacesOf sl) = true →
        RunAnalyzer.variationOf (RunAnalyzer.pacesOf sl) >
          RunAnalyzer.avgOf (RunAnalyzer.pacesOf sl) * 0.2 →
        RunAnalyzer.analyze_run_type ⟨nm, some sl, some d⟩ = "Interval Run") := by
  constructor
  · exact RunAnalyzer.alternatingCheck_iff_noMonoTriple
  · intro nm sl d hn h3 hp halt hvar
    rw [RunAnalyzer.analyze_reaches_decision nm sl d hn h3 hp]
    simp only [RunAnalyzer.decisionFor]
    rw [if_pos ⟨halt, hvar⟩]

/-- Witness for C3: a keyword-free name with split speeds giving paces
300, 400, 300, 400, 300 sec/km is classified "Interval Run". -/
theorem claim_C3_witness :
    RunAnalyzer.analyze_run_type
      ⟨some (NameVal.str "evening fartlek"),
        some [⟨some (10/3)⟩, ⟨some (5/2)⟩, ⟨some (10/3)⟩, ⟨some (5/2)⟩,
          ⟨some (10/3)⟩],
        some 5000⟩ = "Interval Run" :=
  claim_C3.2 _ _ _ (by decide) (by decide) (by with_unfolding_all decide)
    (by with_unfolding_all decide) (by with_unfolding_all decide)

/-- C9: with fewer than 3 extracted paces the triple loop never runs and
the alternating flag stays true; in particular an activity with a
keyword-free name, at least 3 splits, exactly two usable paces, and
pace difference above 20 percent of the mean is classified
"Interval Run". -/
theorem claim_C9 :
    (∀ ps : List ℚ, ps.length < 3 → RunAnalyzer.alternatingCheck ps = true)
    ∧ (∀ (nm : Option NameVal) (sl : List Split) (d : ℚ) (p q : ℚ),
        RunAnalyzer.nameFallsThrough nm = true →
        ¬ sl.length < 3 →
        RunAnalyzer.pacesOf sl = [p, q] →
        |p - q| > 0.2 * ((p + q) / 2) →
        RunAnalyzer.analyze_run_type ⟨nm, some sl, some d⟩ = "Interval Run") := by
  constructor
  · exact RunAnalyzer.alternatingCheck_of_short
  · intro nm sl d p q hn h3 hpq hvar
    rw [RunAnalyzer.analyze_reaches_decision nm sl d hn h3 (by rw [hpq]; simp)]
    rw [hpq]
    simp only [RunAnalyzer.decisionFor]
    rw [if_pos]
    constructor
    · rfl
    · have hv : RunAnalyzer.variationOf [p, q] = |p - q| := by
        simp [RunAnalyzer.variationOf, listMax, listMin, max_sub_min_eq_abs,
          abs_sub_comm]
      have ha : RunAnalyzer.avgOf [p, q] = (p + q) / 2 := by
        simp [RunAnalyzer.avgOf]
      rw [hv, ha]
      linarith

/-- Witness for C9: four splits with only two usable paces 300 and 400
sec/km are classified "Interval Run". -/
theorem claim_C9_witness :
    RunAnalyzer.analyze_run_type
      ⟨some (NameVal.str "evening shakeout"),
        some [⟨some 0⟩, ⟨some (10/3)⟩, ⟨none⟩, ⟨some (5/2)⟩],
        some 2000⟩ = "Interval Run" :=
  claim_C9.2 _ _ _ 300 400 (by decide) (by decide)
    (by with_unfolding_all decide) (by with_unfolding_all decide)

/-- C6: an activity with a keyword-free name that reaches the threshold
decision without the interval branch firing, at exactly 5 miles and 449
sec/mile average pace, is classified "Tempo Run" (whether through the
consistent 3-10 mile branch or the short-fast default branch). -/
theorem claim_C6 (nm : Option NameVal) (sl : List Split) (d : ℚ)
    (hn : RunAnalyzer.nameFallsThrough nm = true)
    (h3 : ¬ sl.length < 3)
    (hp : RunAnalyzer.pacesOf sl ≠ [])
    (hni : ¬ (RunAnalyzer.alternatingCheck (RunAnalyzer.pacesOf sl) = true ∧
        RunAnalyzer.variationOf (RunAnalyzer.pacesOf sl) >
          RunAnalyzer.avgOf (RunAnalyzer.pacesOf sl) * 0.2))
    (hd : d / 1609.34 = 5)
    (hm : RunAnalyzer.avgOf (RunAnalyzer.pacesOf sl) * 1.60934 = 449) :
    RunAnalyzer.analyze_run_type ⟨nm, some sl, some d⟩ = "Tempo Run" := by
  rw [RunAnalyzer.analyze_reaches_decision nm sl d hn h3 hp]
  simp only [RunAnalyzer.decisionFor]
  rw [if_neg hni, hd, hm]
  rw [if_neg (by norm_num)]
  by_cases hsd : RunAnalyzer.sqDevOf (RunAnalyzer.pacesOf sl) <
      (RunAnalyzer.avgOf (RunAnalyzer.pacesOf sl) * 0.1) ^ 2
  · rw [if_pos ⟨by norm_num, by norm_num, by norm_num, hsd⟩]
  · rw [if_neg (by rintro ⟨-, -, -, h⟩; exact hsd h)]
    rw [if_neg (by norm_num)]
    rw [if_pos ⟨by norm_num, by norm_num⟩]

/-- Witness for C6: five equal splits at exactly 449 sec/mile over 5
miles are classified "Tempo Run". -/
theorem claim_C6_witness :
    RunAnalyzer.analyze_run_type
      ⟨some (NameVal.str "steady five"),
        some [⟨some (80467/22450)⟩, ⟨some (80467/22450)⟩, ⟨some (80467/22450)⟩,
          ⟨some (80467/22450)⟩, ⟨some (80467/22450)⟩],
        some (5 * 1609.34)⟩ = "Tempo Run" :=
  claim_C6 _ _ _ (by decide) (by decide) (by with_unfolding_all decide)
    (by with_unfolding_all decide) (by with_unfolding_all decide)
    (by with_unfolding_all decide)

/-- Counterexample to C1 as stated: the concrete activity named
"morning marathon" with three equal splits at exactly 450 sec/mile and
distance 11 miles satisfies every premise of the claim (keyword-free
name, alternating pattern without sufficient variation, distance over 10
miles, average pace exactly 450), yet the classifier returns
"Easy Run", not "Long Run": the earlier branch
distanceMiles > 5 and avgPaceSecPerMile >= 450 fires first. -/
theorem claim_C1_cex :
    RunAnalyzer.nameFallsThrough (some (NameVal.str "morning marathon")) = true
    ∧ RunAnalyzer.avgOf (RunAnalyzer.pacesOf
        [⟨some (80467/22500)⟩, ⟨some (80467/22500)⟩, ⟨some (80467/22500)⟩])
        * 1.60934 = 450
    ∧ (11 * 1609.34 : ℚ) / 1609.34 = 11
    ∧ RunAnalyzer.alternatingCheck (RunAnalyzer.pacesOf
        [⟨some (80467/22500)⟩, ⟨some (80467/22500)⟩, ⟨some (80467/22500)⟩]) = true
    ∧ ¬ (RunAnalyzer.variationOf (RunAnalyzer.pacesOf
        [⟨some (80467/22500)⟩, ⟨some (80467/22500)⟩, ⟨some (80467/22500)⟩])
        > RunAnalyzer.avgOf (RunAnalyzer.pacesOf
        [⟨some (80467/22500)⟩, ⟨some (80467/22500)⟩, ⟨some (80467/22500)⟩]) * 0.2)
    ∧ RunAnalyzer.analyze_run_type
        ⟨some (NameVal.str "morning marathon"),
          some [⟨some (80467/22500)⟩, ⟨some (80467/22500)⟩, ⟨some (80467/22500)⟩],
          some (11 * 1609.34)⟩ = "Easy Run"
    ∧ "Easy Run" ≠ "Long Run" := by
  with_unfolding_all decide

/-- C1 amended: under the claim's premises (keyword-free name, numeric
analysis reached, interval branch not firing, distance over 10 miles,
average pace at least 450 sec/mile) the classifier returns "Easy Run",
because the branch distanceMiles > 5 and avgPaceSecPerMile >= 450
precedes and subsumes the "Long Run" branch. -/
theorem claim_C1 (nm : Option NameVal) (sl : List Split) (d : ℚ)
    (hn : RunAnalyzer.nameFallsThrough nm = true)
    (h3 : ¬ sl.length < 3)
    (hp : RunAnalyzer.pacesOf sl ≠ [])
    (hni : ¬ (RunAnalyzer.alternatingCheck (RunAnalyzer.pacesOf sl) = true ∧
        RunAnalyzer.variationOf (RunAnalyzer.pacesOf sl) >
          RunAnalyzer.avgOf (RunAnalyzer.pacesOf sl) * 0.2))
    (hd : d / 1609.34 > 10)
    (hm : RunAnalyzer.avgOf (RunAnalyzer.pacesOf sl) * 1.60934 ≥ 450) :
    RunAnalyzer.analyze_run_type ⟨nm, some sl, some d⟩ = "Easy Run" := by
  rw [RunAnalyzer.analyze_reaches_decision nm sl d hn h3 hp]
  simp only [RunAnalyzer.decisionFor]
  rw [if_neg hni, if_pos ⟨by linarith, hm⟩]

/-- Witness for the amended C1 at the counterexample activity. -/
theorem claim_C1_witness :
    RunAnalyzer.analyze_run_type
      ⟨some (NameVal.str "morning marathon"),
        some [⟨some (80467/22500)⟩, ⟨some (80467/22500)⟩, ⟨some (80467/22500)⟩],
        some (11 * 1609.34)⟩ = "Easy Run" :=
  claim_C1 _ _ _ (by decide) (by decide) (by with_unfolding_all decide)
    (by with_unfolding_all decide) (by with_unfolding_all decide)
    (by with_unfolding_all decide)

/-- Counterexample to C2 as stated: the activity named "morning jog" has
four splits of which only two have positive speed (paces 300 and 400
sec/km), so fewer than 3 splits have usable pace data; yet the
classifier does not return "run" but "Interval Run" - the guard
len(splits) < 3 counts all splits, zero-speed ones included. -/
theorem claim_C2_cex :
    (RunAnalyzer.pacesOf (RunAnalyzer.splitsOf
        ⟨some (NameVal.str "morning jog"),
          some [⟨some 0⟩, ⟨some (10/3)⟩, ⟨some 0⟩, ⟨some (5/2)⟩],
          some 1609.34⟩)).length = 2
    ∧ RunAnalyzer.analyze_run_type
        ⟨some (NameVal.str "morning jog"),
          some [⟨some 0⟩, ⟨some (10/3)⟩, ⟨some 0⟩, ⟨some (5/2)⟩],
          some 1609.34⟩ = "Interval Run"
    ∧ "Interval Run" ≠ "run" := by
  with_unfolding_all decide

/-- C2 amended: the insufficient-data guard counts all splits - the
classifier returns "run" when the activity has fewer than 3 splits in
total, or when no split at all yields a usable pace; zero-speed splits
do count toward the 3-split minimum, and an activity with at least 3
splits of which only one or two are usable proceeds to the numeric
analysis. -/
theorem claim_C2 (nm : Option NameVal) (sl : List Split) (di : Option ℚ)
    (hn : RunAnalyzer.nameFallsThrough nm = true)
    (h : sl.length < 3 ∨ RunAnalyzer.pacesOf sl = []) :
    RunAnalyzer.analyze_run_type ⟨nm, some sl, di⟩ = "run" := by
  have hg : RunAnalyzer.analyzeSplits ⟨nm, some sl, di⟩ = Except.ok "run" :=
    analyzeSplits_guard _ h
  cases nm with
  | none => simp [RunAnalyzer.analyze_run_type, RunAnalyzer.analyzeCore, hg]
  | some v =>
      cases v with
      | nonstr => simp [RunAnalyzer.nameFallsThrough] at hn
      | str s =>
          simp only [RunAnalyzer.nameFallsThrough, Bool.and_eq_true,
            Bool.not_eq_true'] at hn
          obtain ⟨hh, hi⟩ := hn
          simp [RunAnalyzer.analyze_run_type, RunAnalyzer.analyzeCore, hh, hi, hg]

/-- Witness for the amended C2: one single split, keyword-free name. -/
theorem claim_C2_witness :
    RunAnalyzer.analyze_run_type
      ⟨some (NameVal.str "morning jog"), some [⟨some 3⟩], some 1000⟩ = "run" :=
  claim_C2 _ _ _ (by decide) (Or.inl (by decide))

end StravArt
